import Mathlib

/-!
# Verification of the butler's orchestration layer

A shallow embedding, in Lean 4, of the core logic of the `butler` repository:

* `butler/permissions/classifier.py` — risk classification of tool calls,
* `butler/permissions/approval.py`   — the per-user approval manager,
* `butler/tools/bash_tool.py`        — the blocklisted shell tool,
* `butler/ai/history.py`             — budgeted conversation context and
  summarization of evicted messages,
* `butler/ai/engine.py`              — the bounded agentic tool-use loop,
* `butler/ai/tools.py`               — the tool dispatcher.

Python regular expressions are embedded through a small executable regex
engine (`Re`, `reSearch`) whose patterns are transcribed rule-for-rule from
the source; `re.search` truthiness is modelled as existence of a match at
some position.  Machine details that the claims do not touch (actual
subprocess output, the network, SQLite) enter as explicit oracle parameters.
-/

/-! ## RiskLevel (`butler/permissions/classifier.py`, class RiskLevel(IntEnum)) -/

/-- Risk tiers, an ordered enumeration: SAFE(0) < LOW(1) < MEDIUM(2) < HIGH(3)
< CRITICAL(4), mirroring the `IntEnum` of the source. -/
inductive RiskLevel where
  | SAFE
  | LOW
  | MEDIUM
  | HIGH
  | CRITICAL
deriving DecidableEq, Repr, Fintype

/-- The underlying integer of the `IntEnum`. -/
def RiskLevel.toNat : RiskLevel → Nat
  | .SAFE => 0
  | .LOW => 1
  | .MEDIUM => 2
  | .HIGH => 3
  | .CRITICAL => 4

instance : LE RiskLevel := ⟨fun a b => a.toNat ≤ b.toNat⟩
instance : LT RiskLevel := ⟨fun a b => a.toNat < b.toNat⟩

instance (a b : RiskLevel) : Decidable (a ≤ b) :=
  inferInstanceAs (Decidable (a.toNat ≤ b.toNat))

instance (a b : RiskLevel) : Decidable (a < b) :=
  inferInstanceAs (Decidable (a.toNat < b.toNat))

/-- Python's `max(a, b)` on the `IntEnum`: `b` exactly when `b > a`. -/
instance : Max RiskLevel := ⟨fun a b => if a.toNat < b.toNat then b else a⟩

/-! ## A small regex engine for the source's patterns

The constructs the source patterns use: literal characters, character
classes (also `\s`, `\S`, `.`, `[a-z]`), concatenation, alternation `|`,
`*`, `+`, `?`, the zero-width word boundary `\b` and the anchor `^`.
Matching is existence-of-a-match (what `re.search`'s truthiness tests);
greediness and leftmost-match are irrelevant for that.  The matcher
carries the character preceding the current position so `\b` and `^` can be
decided, and is fueled; star iterations must consume input, as in `re`. -/

/-- Regex abstract syntax. -/
inductive Re where
  | eps
  | ch (c : Char)
  | cls (p : Char → Bool)
  | cat (a b : Re)
  | alt (a b : Re)
  | star (a : Re)
  | wordB
  | bos

/-- Syntactic size, used only to compute a sufficient fuel. -/
def Re.size : Re → Nat
  | .eps | .ch _ | .cls _ | .wordB | .bos => 1
  | .cat a b | .alt a b => a.size + b.size + 1
  | .star a => a.size + 1

/-- Python `\w` for the ASCII range: letters, digits, underscore. -/
def pyWordChar (c : Char) : Bool := c.isAlphanum || c = '_'

/-- Whether the (optional) character at a boundary side is a word character;
an absent side (start/end of string) counts as non-word. -/
def optWordChar : Option Char → Bool
  | none => false
  | some c => pyWordChar c

/-- Python `\s` (ASCII range): space, tab, newline, carriage return,
vertical tab, form feed. -/
def pySpace (c : Char) : Bool :=
  c = ' ' || c = '\t' || c = '\n' || c = '\r' || c = '\x0b' || c = '\x0c'

/-- All ways a regex can match a prefix of `s`, where `prev` is the character
just before the current position (`none` at the start of the string).  Each
result is the position after the match: the last consumed character and the
remaining input.  A star only iterates on strictly shorter input, as in
`re` (no empty-star loops). -/
def matF : Nat → Re → Option Char → List Char → List (Option Char × List Char)
  | 0, _, _, _ => []
  | fuel + 1, r, prev, s =>
    match r with
    | .eps => [(prev, s)]
    | .ch c =>
      match s with
      | [] => []
      | a :: rest => if a = c then [(some a, rest)] else []
    | .cls p =>
      match s with
      | [] => []
      | a :: rest => if p a then [(some a, rest)] else []
    | .cat r1 r2 => (matF fuel r1 prev s).flatMap fun pr => matF fuel r2 pr.1 pr.2
    | .alt r1 r2 => matF fuel r1 prev s ++ matF fuel r2 prev s
    | .star r1 =>
      (prev, s) :: (matF fuel r1 prev s).flatMap fun pr =>
        if pr.2.length < s.length then matF fuel (.star r1) pr.1 pr.2 else []
    | .wordB => if optWordChar prev ≠ optWordChar s.head? then [(prev, s)] else []
    | .bos =>
      match prev with
      | none => [(prev, s)]
      | some _ => []

/-- Fuel that dominates the recursion depth of `matF` for the source's
patterns (each call strips one unit; stars recurse only on shorter input). -/
def fuelFor (r : Re) (s : List Char) : Nat := (r.size + 2) * (s.length + 2) * 2

/-- Try to match at the current position, else advance one character. -/
def searchFrom (r : Re) (fuel : Nat) : Option Char → List Char → Bool
  | prev, [] => !(matF fuel r prev []).isEmpty
  | prev, a :: rest =>
    !(matF fuel r prev (a :: rest)).isEmpty || searchFrom r fuel (some a) rest

/-- `re.search(pattern, s)` truthiness: the pattern matches somewhere in `s`. -/
def reSearch (r : Re) (s : String) : Bool :=
  searchFrom r (fuelFor r s.toList) none s.toList

/-- A literal string of characters. -/
def lit (s : String) : Re := (s.toList.map Re.ch).foldr Re.cat Re.eps

/-- A character class given by an explicit set of characters. -/
def oneOf (s : String) : Re := Re.cls fun c => s.toList.contains c

/-- A character range such as `[a-z]`. -/
def rng (lo hi : Char) : Re := Re.cls fun c => lo ≤ c && c ≤ hi

/-- `\s` -/
def wsp : Re := Re.cls pySpace

/-- `\S` -/
def nsp : Re := Re.cls fun c => !pySpace c

/-- `.` (any character except newline). -/
def dotAny : Re := Re.cls fun c => c != '\n'

/-- `r+` -/
def plusR (r : Re) : Re := .cat r (.star r)

/-- `r?` -/
def optR (r : Re) : Re := .alt r .eps

/-- `\b` -/
def wb : Re := Re.wordB

/-- Concatenation of a sequence of regexes. -/
def catL (rs : List Re) : Re := rs.foldr Re.cat Re.eps

/-- `(a|b|...)` -/
def alts : List Re → Re
  | [] => .eps
  | [r] => r
  | r :: rest => .alt r (alts rest)

/-! ## The bash rules (`_BASH_RULES`), transcribed pattern by pattern -/

/-- Pattern `rm\s+-[rf]+\s*/\b|rm\s+--no-preserve-root`. -/
def reRmRoot : Re :=
  .alt (catL [lit "rm", plusR wsp, .ch '-', plusR (oneOf "rf"), .star wsp, .ch '/', wb])
    (catL [lit "rm", plusR wsp, lit "--no-preserve-root"])

/-- Pattern `:\(\)\s*\{.*\|.*\&` (fork bomb); the brace is `Char.ofNat 123`. -/
def reForkBomb : Re :=
  catL [lit ":()", .star wsp, .ch (Char.ofNat 123), .star dotAny, .ch '|', .star dotAny, .ch '&']

/-- Pattern `dd\s+if=/dev/(random|zero|urandom)`. -/
def reDdDev : Re :=
  catL [lit "dd", plusR wsp, lit "if=/dev/", alts [lit "random", lit "zero", lit "urandom"]]

/-- Pattern `\bmkfs\b|\bformat\b`. -/
def reMkfsFormat : Re :=
  .alt (catL [wb, lit "mkfs", wb]) (catL [wb, lit "format", wb])

/-- Pattern `>\s*/dev/sd[a-z]`. -/
def reDevSd : Re := catL [.ch '>', .star wsp, lit "/dev/sd", rng 'a' 'z']

/-- Pattern `\brm\s+(-[rf]+\s+)?\S` (any rm). -/
def reAnyRm : Re :=
  catL [wb, lit "rm", plusR wsp, optR (catL [.ch '-', plusR (oneOf "rf"), plusR wsp]), nsp]

/-- Pattern `\bsudo\b|\bdoas\b`. -/
def reSudo : Re := .alt (catL [wb, lit "sudo", wb]) (catL [wb, lit "doas", wb])

/-- Pattern `\bchmod\s+[0-7]*[0-7][0-7][0-7]\b`. -/
def reChmod : Re :=
  catL [wb, lit "chmod", plusR wsp, .star (rng '0' '7'), rng '0' '7', rng '0' '7', rng '0' '7', wb]

/-- Pattern `\bcurl\b.*\|\s*(ba)?sh\b` (curl piped into a shell). -/
def reCurlSh : Re :=
  catL [wb, lit "curl", wb, .star dotAny, .ch '|', .star wsp, optR (lit "ba"), lit "sh", wb]

/-- Pattern `\bkill\b|\bkillall\b`. -/
def reKill : Re := .alt (catL [wb, lit "kill", wb]) (catL [wb, lit "killall", wb])

/-- Pattern `\blaunchctl\s+(load|unload|bootstrap|bootout)\b`. -/
def reLaunchctl : Re :=
  catL [wb, lit "launchctl", plusR wsp,
    alts [lit "load", lit "unload", lit "bootstrap", lit "bootout"], wb]

/-- Pattern `\bsystemctl\s+(start|stop|restart|enable|disable)\b`. -/
def reSystemctl : Re :=
  catL [wb, lit "systemctl", plusR wsp,
    alts [lit "start", lit "stop", lit "restart", lit "enable", lit "disable"], wb]

/-- Pattern `\bpkill\b`. -/
def rePkill : Re := catL [wb, lit "pkill", wb]

/-- Pattern `\bcrontab\b`. -/
def reCrontab : Re := catL [wb, lit "crontab", wb]

/-- Pattern `\bnetwork\b.*\bset\b|\bifconfig\b.*\bdown\b`. -/
def reNetwork : Re :=
  .alt (catL [wb, lit "network", wb, .star dotAny, wb, lit "set", wb])
    (catL [wb, lit "ifconfig", wb, .star dotAny, wb, lit "down", wb])

/-- Pattern `\bmv\b`. -/
def reMv : Re := catL [wb, lit "mv", wb]

/-- Pattern `\bcp\s+.*\s+/`. -/
def reCp : Re := catL [wb, lit "cp", plusR wsp, .star dotAny, plusR wsp, .ch '/']

/-- Pattern `\bssh\b|\brsync\b|\bscp\b`. -/
def reSsh : Re :=
  alts [catL [wb, lit "ssh", wb], catL [wb, lit "rsync", wb], catL [wb, lit "scp", wb]]

/-- Pattern `\bbrewup\b|\bbrew\s+(install|uninstall|upgrade)\b`. -/
def reBrew : Re :=
  .alt (catL [wb, lit "brewup", wb])
    (catL [wb, lit "brew", plusR wsp, alts [lit "install", lit "uninstall", lit "upgrade"], wb])

/-- Pattern `\bnpm\s+(install|uninstall)\b|\bpip\s+(install|uninstall)\b`. -/
def reNpmPip : Re :=
  .alt (catL [wb, lit "npm", plusR wsp, alts [lit "install", lit "uninstall"], wb])
    (catL [wb, lit "pip", plusR wsp, alts [lit "install", lit "uninstall"], wb])

/-- Pattern `\bgit\s+(push|reset|rebase|force)\b`. -/
def reGit : Re :=
  catL [wb, lit "git", plusR wsp, alts [lit "push", lit "reset", lit "rebase", lit "force"], wb]

/-- Pattern `\bopen\s+-a\b`. -/
def reOpenA : Re := catL [wb, lit "open", plusR wsp, lit "-a", wb]

/-- Pattern `\bmkdir\b|\btouch\b|\becho\b|\bcat\b`. -/
def reMkdirEtc : Re :=
  alts [catL [wb, lit "mkdir", wb], catL [wb, lit "touch", wb],
    catL [wb, lit "echo", wb], catL [wb, lit "cat", wb]]

/-- Pattern `\bgrep\b|\bfind\b|\bls\b|\bpwd\b|\bwhoami\b|\bdate\b`. -/
def reGrepEtc : Re :=
  alts [catL [wb, lit "grep", wb], catL [wb, lit "find", wb], catL [wb, lit "ls", wb],
    catL [wb, lit "pwd", wb], catL [wb, lit "whoami", wb], catL [wb, lit "date", wb]]

/-- Pattern `\bpython\b|\bnode\b|\bruby\b|\bperl\b`. -/
def reInterp : Re :=
  alts [catL [wb, lit "python", wb], catL [wb, lit "node", wb],
    catL [wb, lit "ruby", wb], catL [wb, lit "perl", wb]]

/-- Pattern `^(ls|pwd|whoami|date|echo|cat|head|tail|grep|wc)\b`. -/
def reSimpleRead : Re :=
  catL [Re.bos,
    alts [lit "ls", lit "pwd", lit "whoami", lit "date", lit "echo", lit "cat",
      lit "head", lit "tail", lit "grep", lit "wc"], wb]

/-- `_BASH_RULES`: ordered pattern→tier rules, first match wins. -/
def BASH_RULES : List (Re × RiskLevel) := [
  (reRmRoot, .CRITICAL),
  (reForkBomb, .CRITICAL),
  (reDdDev, .CRITICAL),
  (reMkfsFormat, .CRITICAL),
  (reDevSd, .CRITICAL),
  (reAnyRm, .HIGH),
  (reSudo, .HIGH),
  (reChmod, .HIGH),
  (reCurlSh, .HIGH),
  (reKill, .HIGH),
  (reLaunchctl, .HIGH),
  (reSystemctl, .HIGH),
  (rePkill, .HIGH),
  (reCrontab, .HIGH),
  (reNetwork, .HIGH),
  (reMv, .MEDIUM),
  (reCp, .MEDIUM),
  (reSsh, .MEDIUM),
  (reBrew, .MEDIUM),
  (reNpmPip, .MEDIUM),
  (reGit, .MEDIUM),
  (reOpenA, .MEDIUM),
  (reMkdirEtc, .LOW),
  (reGrepEtc, .LOW),
  (reInterp, .LOW),
  (reSimpleRead, .SAFE)]

/-- `TOOL_BASE_RISKS`: base risk for each tool. -/
def TOOL_BASE_RISKS : List (String × RiskLevel) := [
  ("bash", .MEDIUM),
  ("file_read", .SAFE),
  ("file_write", .MEDIUM),
  ("file_list", .SAFE),
  ("file_send", .LOW),
  ("browser_navigate", .LOW),
  ("browser_click", .LOW),
  ("browser_type", .LOW),
  ("browser_get_text", .SAFE),
  ("browser_screenshot", .SAFE),
  ("screenshot", .SAFE),
  ("email_list", .LOW),
  ("email_read", .LOW),
  ("email_send", .HIGH),
  ("linkedin_get_feed", .SAFE),
  ("linkedin_get_notifications", .SAFE),
  ("linkedin_get_messages", .SAFE),
  ("linkedin_get_pages", .SAFE),
  ("linkedin_connect", .MEDIUM),
  ("linkedin_comment", .MEDIUM),
  ("linkedin_send_message", .HIGH),
  ("linkedin_post", .HIGH),
  ("linkedin_page_post", .HIGH),
  ("instagram_get_feed", .SAFE),
  ("instagram_get_notifications", .SAFE),
  ("instagram_get_messages", .SAFE),
  ("instagram_follow", .MEDIUM),
  ("instagram_like", .LOW),
  ("instagram_comment", .MEDIUM),
  ("instagram_send_message", .HIGH),
  ("instagram_post", .HIGH)]

/-- The first-match-wins scan of `classify_bash`'s rule loop. -/
def scanRules (command : String) : List (Re × RiskLevel) → RiskLevel
  | [] => .MEDIUM
  | (p, level) :: rest => if reSearch p command then level else scanRules command rest

/-- `classify_bash`: first matching rule's level; unmatched commands default
to MEDIUM. -/
def classify_bash (command : String) : RiskLevel := scanRules command BASH_RULES

/-- Tool-call arguments as the classifier consults them: a JSON object whose
relevant fields (`command`, `path`) are strings. -/
abbrev StrArgs := List (String × String)

/-- Python `args.get(key, default)` for string-valued fields. -/
def argsGetD (args : StrArgs) (key default' : String) : String :=
  (args.lookup key).getD default'

/-- `leadsWith p s`: the character list `p` heads the list `s`. -/
def leadsWith : List Char → List Char → Bool
  | [], _ => true
  | _ :: _, [] => false
  | a :: as, b :: bs => a = b && leadsWith as bs

/-- Python `s.startswith(p)`, computably on the character lists. -/
def pyStartswith (s p : String) : Bool := leadsWith p.toList s.toList

/-- `classify_tool`: base risk (MEDIUM for unknown tools); for `bash` the
maximum of the base and the command's pattern tier; for `file_write` an
unconditional escalation to CRITICAL under reserved system-path prefixes. -/
def classify_tool (tool_name : String) (args : StrArgs) : RiskLevel :=
  let base := (TOOL_BASE_RISKS.lookup tool_name).getD .MEDIUM
  if tool_name = "bash" then
    let cmd := argsGetD args "command" ""
    max base (classify_bash cmd)
  else if tool_name = "file_write" then
    let path := argsGetD args "path" ""
    if ["/etc/", "/usr/", "/bin/", "/sbin/", "/System/"].any (fun p => pyStartswith path p) then
      .CRITICAL
    else base
  else base

example : classify_bash "ls" = .LOW := by decide
example : classify_bash "foobar" = .MEDIUM := by decide
example : classify_bash "mkfs /dev/sda1" = .CRITICAL := by decide
example : classify_bash "rm -rf /" = .HIGH := by decide
example : classify_bash "rm -rf /home" = .CRITICAL := by decide
example : classify_tool "bash" [("command", "ls")] = .MEDIUM := by decide
example : classify_tool "file_write" [("path", "/etc/passwd")] = .CRITICAL := by decide

/-! ## The sandboxed bash tool (`butler/tools/bash_tool.py`) -/

/-- Pattern `rm\s+-[rf]+\s*/\b` (blocklist entry; unlike `_BASH_RULES` it has
no `--no-preserve-root` alternative). -/
def reBlockRmRoot : Re :=
  catL [lit "rm", plusR wsp, .ch '-', plusR (oneOf "rf"), .star wsp, .ch '/', wb]

/-- Pattern `dd\s+if=/dev/(random|zero|urandom)\s+of=/dev/sd`. -/
def reBlockDd : Re :=
  catL [lit "dd", plusR wsp, lit "if=/dev/", alts [lit "random", lit "zero", lit "urandom"],
    plusR wsp, lit "of=/dev/sd"]

/-- Pattern `\bmkfs\b`. -/
def reBlockMkfs : Re := catL [wb, lit "mkfs", wb]

/-- `_BLOCKLIST`: commands always blocked regardless of user approval.
The fork-bomb and disk-redirect patterns are the same as in `_BASH_RULES`. -/
def BLOCKLIST : List Re := [reBlockRmRoot, reForkBomb, reBlockDd, reDevSd, reBlockMkfs]

/-- `_is_blocked`: some blocklist pattern matches the command. -/
def is_blocked (command : String) : Bool := BLOCKLIST.any fun p => reSearch p command

/-- What the spawned subprocess did, an oracle for the external world:
it timed out, completed with an exit code and (decoded) output, or the
execution attempt raised. -/
inductive ExecOutcome where
  | timedOut
  | completed (exit_code : Int) (output : String)
  | raised (msg : String)
deriving DecidableEq, Repr

/-- The textual result of `run_bash`, one constructor per `return` site;
the payloads are the data interpolated into the source's f-strings:
`blocked` is the `[BLOCKED] This command is permanently blocked for
safety: {command!r}` message, `denied` the `[DENIED] User denied execution
of: {command!r}` message, `timedOut` the `[TIMEOUT] ...` message,
`exited` the `[exit {code}]\n{output}` message, `ok` the plain output
(`[no output]` when empty) and `error` the `[ERROR] {e}` message. -/
inductive BashResult where
  | blocked (command : String)
  | denied (command : String)
  | timedOut (timeout : Int)
  | exited (code : Int) (output : String)
  | ok (output : String)
  | error (msg : String)
deriving DecidableEq, Repr

/-- The output cap: over 8000 characters, keep 7900 and append a truncation
marker. -/
def truncateOutput (output : String) : String :=
  if output.length > 8000 then
    output.take 7900 ++ "\n…[truncated, " ++ toString output.length ++ " chars total]"
  else output

/-- The post-approval part of `run_bash` (subprocess spawn through the
`return`s), as a function of the execution oracle. -/
def execPhase (timeout : Int) : ExecOutcome → BashResult
  | .timedOut => .timedOut timeout
  | .completed code output =>
    let output := truncateOutput output
    if code ≠ 0 then .exited code output
    else if output = "" then .ok "[no output]"
    else .ok output
  | .raised msg => .error msg

/-- One `run_bash` call, observed: its result, whether it called
`approver.request_approval`, and whether the command reached the shell. -/
structure BashRun where
  result : BashResult
  approval_requested : Bool
  executed : Bool
deriving DecidableEq, Repr

/-- `run_bash`: blocklist check, then classification, then (when an approver
is wired in and the risk is above the auto-approve level) the approval
round-trip, then execution.  `approval_result` is what
`approver.request_approval` returned — `true` also covers the manager's
auto-approval and its "yes all" flag — and `exec` stands for the subprocess. -/
def run_bash (command : String) (approver_present : Bool) (approval_result : Bool)
    (exec : ExecOutcome) (timeout : Int := 30) (auto_approve_below : RiskLevel := .LOW) :
    BashRun :=
  if is_blocked command then
    ⟨.blocked command, false, false⟩
  else
    let risk := classify_bash command
    if approver_present && decide (auto_approve_below < risk) then
      if approval_result then ⟨execPhase timeout exec, true, true⟩
      else ⟨.denied command, true, false⟩
    else ⟨execPhase timeout exec, false, true⟩

example : (run_bash "mkfs /dev/sda1" true true (.completed 0 "done")).result
    = .blocked "mkfs /dev/sda1" := by decide
example : (run_bash "ls" true true (.completed 0 "a.txt")).result = .ok "a.txt" := by decide

/-! ## The approval manager (`butler/permissions/approval.py`)

`ApprovalManager` holds, per user: `_pending` (correlation id → unresolved
future), `_current_id`, and the permanent `_yes_all` flag.  Because asyncio
is cooperative, its behaviour is a deterministic state machine whose
transitions are the synchronous sections between `await` points; a future
still present in `pending` models an unresolved `asyncio.Future`. -/

structure ApprovalState where
  /-- The keys of `_pending`, in insertion order; each stands for an
  unresolved future. -/
  pending : List String
  /-- `_current_id`. -/
  current_id : Option String
  /-- `_yes_all`. -/
  yes_all : Bool
deriving DecidableEq, Repr

/-- The state of a fresh `ApprovalManager`. -/
def initialApproval : ApprovalState := ⟨[], none, false⟩

/-- What the synchronous prefix of `request_approval` (everything up to the
`await` of the future) did: the state it left, whether the call returned
`True` immediately (auto-approval), and whether the prompt message was
sent (the call suspended). -/
structure RequestStart where
  state : ApprovalState
  immediate : Bool
  prompt_sent : Bool
deriving DecidableEq, Repr

/-- `request_approval`, up to its suspension point: auto-approve when
`risk <= auto_approve_below` or `_yes_all`; otherwise record the fresh
correlation id as current, add the future to `_pending`, and send the
prompt. -/
def request_approval_start (auto_approve_below : RiskLevel) (s : ApprovalState)
    (risk : RiskLevel) (request_id : String) : RequestStart :=
  if risk ≤ auto_approve_below || s.yes_all then ⟨s, true, false⟩
  else ⟨⟨s.pending ++ [request_id], some request_id, s.yes_all⟩, false, true⟩

/-- The timeout path of `request_approval`: drop the entry from `_pending`
and clear `_current_id` if it still points at this request. -/
def timeout_step (s : ApprovalState) (request_id : String) : ApprovalState :=
  let s' : ApprovalState := ⟨s.pending.erase request_id, s.current_id, s.yes_all⟩
  if s'.current_id = some request_id then ⟨s'.pending, none, s'.yes_all⟩ else s'

/-- Python `str.strip()` on the ASCII whitespace the replies use. -/
def pyStrip (s : String) : String :=
  ⟨((s.toList.dropWhile pySpace).reverse.dropWhile pySpace).reverse⟩

/-- Python `str.lower()` (the reply phrases are ASCII). -/
def pyLower (s : String) : String := ⟨s.toList.map Char.toLower⟩

/-- `text.strip().lower()` at the top of `handle_reply`. -/
def normalizeReply (text : String) : String := pyLower (pyStrip text)

/-- The `("yes all", "yesall", "y all")` tuple. -/
def YES_ALL_PHRASES : List String := ["yes all", "yesall", "y all"]

/-- The yes-phrases tuple. -/
def YES_PHRASES : List String := ["yes", "y", "approve", "ok", "yep", "sure"]

/-- The no-phrases tuple. -/
def NO_PHRASES : List String := ["no", "n", "deny", "cancel", "nope", "stop"]

/-- What one `handle_reply` call did: the state it left, the returned bool
(`consumed`), and the futures it resolved (correlation id, approved). -/
structure ReplyResult where
  state : ApprovalState
  consumed : Bool
  resolved : List (String × Bool)
deriving DecidableEq, Repr

/-- `handle_reply`: a yes-all phrase sets `_yes_all`, approves and clears
every pending future and is always consumed; a yes/no phrase resolves the
current pending request when there is one; anything else (or a yes/no with
no valid current request) is not consumed. -/
def handle_reply (s : ApprovalState) (text : String) : ReplyResult :=
  let normalized := normalizeReply text
  if YES_ALL_PHRASES.contains normalized then
    ⟨⟨[], none, true⟩, true, s.pending.map fun rid => (rid, true)⟩
  else
    let is_yes := YES_PHRASES.contains normalized
    let is_no := NO_PHRASES.contains normalized
    if !(is_yes || is_no) then ⟨s, false, []⟩
    else
      match s.current_id with
      | none => ⟨s, false, []⟩
      | some cid =>
        if s.pending.contains cid then
          ⟨⟨s.pending.erase cid, none, s.yes_all⟩, true, [(cid, is_yes)]⟩
        else ⟨s, false, []⟩

/-- The manager's interleavable operations (one per `await`-free section):
the start of a `request_approval`, a `handle_reply`, a timeout.
(`reset_yes_all` exists in the source but has no caller.) -/
inductive ApprovalOp where
  | start (auto_approve_below risk : RiskLevel) (request_id : String)
  | reply (text : String)
  | timeoutAt (request_id : String)

/-- Apply one operation to the state. -/
def applyOp (s : ApprovalState) : ApprovalOp → ApprovalState
  | .start auto risk rid => (request_approval_start auto s risk rid).state
  | .reply text => (handle_reply s text).state
  | .timeoutAt rid => timeout_step s rid

example : (handle_reply ⟨["A"], some "A", false⟩ "  YES ").consumed = true := by decide
example : (handle_reply ⟨["A"], some "A", false⟩ "maybe").consumed = false := by decide
example : (handle_reply initialApproval "yes all").state.yes_all = true := by decide

/-! ## Conversation history (`butler/ai/history.py`) -/

/-- Decoded message content.  `raw` is the JSON-decoded `content` column of
a stored message (kept abstract as its JSON text); `textBlocks t` is the
synthetic `[{"type": "text", "text": t}]` block list `_build_context`
builds for the memory/summary exchange. -/
inductive HContent where
  | raw (json : String)
  | textBlocks (text : String)
deriving DecidableEq, Repr

/-- One row of the `messages` table as `load` reads it: id, role, decoded
content, stored token estimate. -/
structure MsgRow where
  id : Int
  role : String
  content : HContent
  tokens : Int
deriving DecidableEq, Repr

/-- A message handed to the model: the row with the internal `id` and
`_tokens` fields stripped (step 6 of `load`). -/
structure CtxMsg where
  role : String
  content : HContent
deriving DecidableEq, Repr

/-- Strip the internal fields. -/
def stripRow (m : MsgRow) : CtxMsg := ⟨m.role, m.content⟩

/-- `_build_context`: prepend the memory and summary blocks, when non-empty,
as a synthetic user→assistant exchange. -/
def build_context (memory_block summaries_text : String) (messages : List CtxMsg) :
    List CtxMsg :=
  let context_parts :=
    (if memory_block ≠ "" then [memory_block] else []) ++
    (if summaries_text ≠ "" then ["Summary of our past conversations:\n" ++ summaries_text]
     else [])
  if context_parts.isEmpty then messages
  else
    let context_text := String.intercalate "\n\n" context_parts
    [⟨"user", .textBlocks context_text⟩,
     ⟨"assistant", .textBlocks "Got it — I have that context in mind."⟩] ++ messages

/-- `recent = all_messages[-keep_recent:]` and
`older = all_messages[:-keep_recent]`, with Python's negative-slice
semantics (`-0` is `0`, so `keep_recent = 0` keeps everything "recent"). -/
def splitRecent (keep_recent : Nat) (all_messages : List MsgRow) :
    List MsgRow × List MsgRow :=
  if keep_recent = 0 then (all_messages, [])
  else (all_messages.drop (all_messages.length - keep_recent),
    all_messages.take (all_messages.length - keep_recent))

/-- The eviction loop of `load` step 4: walk `older` newest-to-oldest,
keeping each message while `budget_remaining > 0` (then decrementing) and
evicting the rest; both output lists come out oldest-first.  Returns
`(kept_older, evicted)`. -/
def evictSplit (budget_remaining : Int) (older : List MsgRow) :
    List MsgRow × List MsgRow :=
  let r := older.reverse.foldl
    (fun (acc : List MsgRow × List MsgRow × Int) m =>
      if acc.2.2 > 0 then (m :: acc.1, acc.2.1, acc.2.2 - m.tokens)
      else (acc.1, m :: acc.2.1, acc.2.2))
    ([], [], budget_remaining)
  (r.1, r.2.1)

/-- The message-selection core of `ConversationHistory.load` (steps 3–6):
from the full ordered message list, the token budget and `keep_recent`,
the context handed back.  `memory_block` is step 1's output and
`summaries_text` the summaries text as of step 6 (after any summarization);
neither influences which messages are kept. -/
def load_messages (token_budget : Int) (keep_recent : Nat)
    (memory_block summaries_text : String) (all_messages : List MsgRow) : List CtxMsg :=
  if all_messages.isEmpty then build_context memory_block summaries_text []
  else
    let rs := splitRecent keep_recent all_messages
    let recent := rs.1
    let older := rs.2
    let recent_tokens := recent.foldl (fun a m => a + m.tokens) 0
    let budget_remaining := token_budget - recent_tokens
    let kept_older := (evictSplit budget_remaining older).1
    build_context memory_block summaries_text ((kept_older ++ recent).map stripRow)

/-- One row of the `summaries` table. -/
structure SummaryRow where
  first_msg_id : Int
  last_msg_id : Int
  content : String
deriving DecidableEq, Repr

/-- `SUMMARY_CHUNK_SIZE` -/
def SUMMARY_CHUNK_SIZE : Nat := 20

/-- `range(0, len(messages), SUMMARY_CHUNK_SIZE)` chunking. -/
def chunked (l : List MsgRow) : List (List MsgRow) :=
  if l.isEmpty then []
  else l.take SUMMARY_CHUNK_SIZE :: chunked (l.drop SUMMARY_CHUNK_SIZE)
termination_by l.length
decreasing_by
  rename_i h
  have hl : l ≠ [] := by intro he; exact h (by simp [he])
  have : 0 < l.length := List.length_pos.mpr hl
  simp only [List.length_drop, SUMMARY_CHUNK_SIZE]
  omega

/-- The per-chunk body of `_summarize_and_store`'s loop: `none` when the
chunk's `[first, last]` id range is already fully contained in a covered
range (the chunk is skipped), otherwise the summary row to insert. -/
def chunkRow (covered : List (Int × Int)) (summarize_fn : List MsgRow → String)
    (chunk : List MsgRow) : Option SummaryRow :=
  match chunk with
  | [] => none
  | m :: rest =>
    let first_id := m.id
    let last_id := (rest.getLastD m).id
    if covered.any (fun fl => decide (first_id ≥ fl.1) && decide (last_id ≤ fl.2)) then none
    else some ⟨first_id, last_id, summarize_fn chunk⟩

/-- `_summarize_and_store`: read the covered `(first, last)` ranges once,
then insert one summary row per not-yet-covered chunk of the evicted
messages. -/
def summarize_and_store (summaries : List SummaryRow) (messages : List MsgRow)
    (summarize_fn : List MsgRow → String) : List SummaryRow :=
  let covered := summaries.map fun r => (r.first_msg_id, r.last_msg_id)
  summaries ++ (chunked messages).filterMap (chunkRow covered summarize_fn)

/-- The evicted messages of one `load` call: the second component of the
same step-4 eviction walk `load_messages` performs. -/
def evictedOf (token_budget : Int) (keep_recent : Nat) (all_messages : List MsgRow) :
    List MsgRow :=
  let rs := splitRecent keep_recent all_messages
  let recent_tokens := rs.1.foldl (fun a m => a + m.tokens) 0
  (evictSplit (token_budget - recent_tokens) rs.2).2

/-- The summary-store effect of one `load` call (steps 3–5): the summaries
table after the call, as a function of the table before it and the same
message list/budget configuration `load_messages` sees.  Summarization
runs only when something was evicted and a summarizer is wired in. -/
def load_summaries (summaries : List SummaryRow) (token_budget : Int) (keep_recent : Nat)
    (all_messages : List MsgRow) (summarize_fn : List MsgRow → String) : List SummaryRow :=
  if all_messages.isEmpty then summaries
  else
    let evicted := evictedOf token_budget keep_recent all_messages
    if evicted.isEmpty then summaries
    else summarize_and_store summaries evicted summarize_fn

/-! ## The agentic loop (`butler/ai/engine.py`, `AIEngine._run_api`) -/

/-- `MAX_ITERATIONS` -/
def MAX_ITERATIONS : Nat := 10

/-- A content block of a model response or of an appended message. -/
inductive CBlock where
  | text (t : String)
  | tool_use (id name : String) (input : StrArgs)
  | tool_result (tool_use_id : String) (content : String)
deriving DecidableEq, Repr

/-- A model response: stop reason plus content blocks. -/
structure ModelResp where
  stop_reason : String
  content : List CBlock
deriving DecidableEq, Repr

/-- A message of the working context. -/
structure ChatMsg where
  role : String
  content : List CBlock
deriving DecidableEq, Repr

/-- The text blocks of a response, in order. -/
def textParts (content : List CBlock) : List String :=
  content.filterMap fun b => match b with | .text t => some t | _ => none

/-- The `for iteration in range(MAX_ITERATIONS)` loop of `_run_api`, with
`n` iterations left and `calls` model calls made so far.  `model` is the
model service (a function of the accumulated messages) and `dispatchFn`
the registry's dispatch (which in the source returns a string for every
tool call that completes).  Returns the final text and the total number
of model calls. -/
def runApiAux (model : List ChatMsg → ModelResp) (dispatchFn : String → StrArgs → String) :
    Nat → List ChatMsg → Nat → String × Nat
  | 0, _, calls =>
    ("[Error] Maximum tool-use iterations reached. Please try a simpler request.", calls)
  | n + 1, messages, calls =>
    let resp := model messages
    let calls := calls + 1
    let text_parts := textParts resp.content
    if resp.stop_reason = "end_turn" then
      (if text_parts.isEmpty then "(no response)" else String.intercalate "\n" text_parts,
       calls)
    else if resp.stop_reason = "tool_use" then
      let messages := messages ++ [⟨"assistant", resp.content⟩]
      let tool_results := resp.content.filterMap fun b =>
        match b with
        | .tool_use id name input => some (CBlock.tool_result id (dispatchFn name input))
        | _ => none
      runApiAux model dispatchFn n (messages ++ [⟨"user", tool_results⟩]) calls
    else
      let text := String.intercalate "\n" text_parts
      let text := if resp.stop_reason = "max_tokens" then text ++ "\n…[response truncated]"
        else text
      (if text = "" then "(no response)" else text, calls)

/-- `_run_api`: the loop entered with the full iteration budget. -/
def run_api (model : List ChatMsg → ModelResp) (dispatchFn : String → StrArgs → String)
    (messages : List ChatMsg) : String × Nat :=
  runApiAux model dispatchFn MAX_ITERATIONS messages 0

example : run_api (fun _ => ⟨"end_turn", [.text "hi"]⟩) (fun _ _ => "") [] = ("hi", 1) := by
  decide

/-! ## The tool dispatcher (`butler/ai/tools.py`, `ToolRegistry.dispatch`)

`dispatch` is an async method; every tool implementation it calls returns a
string, so the capabilities enter as string-valued oracles.  What `dispatch`
itself can do besides returning a string is raise: `args["key"]` raises
`KeyError` when the key is missing, and calling a capability slot that was
never configured (still `None`) raises `TypeError`.  Those two exceptional
outcomes are the `Except.error` branch. -/

/-- A JSON scalar of the tool-call argument object (the shapes the
dispatcher reads and forwards).  `appr` stands for the `ApprovalManager`
(or `None`) value the dispatcher passes along to a capability. -/
inductive DVal where
  | str (s : String)
  | num (n : Int)
  | bool (b : Bool)
  | appr (present : Bool)
deriving DecidableEq, Repr

/-- The argument object of a tool call. -/
abbrev DArgs := List (String × DVal)

/-- An exception escaping `dispatch`. -/
inductive PyErr where
  | keyError (key : String)
  | typeError
deriving DecidableEq, Repr

/-- `args[key]`: the value, or a raised `KeyError`. -/
def getItem (args : DArgs) (key : String) : Except PyErr DVal :=
  match args.lookup key with
  | some v => .ok v
  | none => .error (.keyError key)

/-- `args.get(key, default)`. -/
def getValD (args : DArgs) (key : String) (default' : DVal) : DVal :=
  (args.lookup key).getD default'

/-- `args.get(key)` (default `None`). -/
def getOpt (args : DArgs) (key : String) : Option DVal := args.lookup key

/-- Python truthiness of the scalars the dispatcher tests. -/
def truthy : DVal → Bool
  | .str s => s ≠ ""
  | .num n => n ≠ 0
  | .bool b => b
  | .appr _ => true

/-- Python `str()` of a scalar, as interpolated into the dispatcher's
f-strings. -/
def valStr : DVal → String
  | .str s => s
  | .num n => toString n
  | .bool b => if b then "True" else "False"
  | .appr _ => "<ApprovalManager>"

/-- One configured email account (`EmailTool`): its three methods, as
string-valued oracles over the argument values the dispatcher passes. -/
structure EmailToolFns where
  list_emails : DVal → DVal → String
  read_email : DVal → String
  send_email : DVal → DVal → DVal → DVal → String
deriving Inhabited

/-- The memory interface the dispatcher uses (`self._history`):
`forget_memory`'s returned bool and `list_memories`' mapping, as oracles;
`save_memory` only has an effect, so it needs no oracle. -/
structure HistoryFns where
  forget_memory : String → String → DVal → Bool
  list_memories : String → String → List (String × String)

/-- The registry state `configure`/`init_tools` build: capability slots
(`none` = left unconfigured, a call to it raises `TypeError`), the email
accounts in insertion order, and the optional collaborators. -/
structure ToolRegistry where
  bash_fn : Option (DVal → DVal → DVal → String)
  file_read_fn : Option (DVal → DVal → String)
  file_write_fn : Option (DVal → DVal → DVal → String)
  file_list_fn : Option (DVal → DVal → String)
  email_tools : List (String × EmailToolFns)
  send_file_to_user : Option Unit
  approver_factory : Option Unit
  history : Option HistoryFns
  stability_api_key : String

/-- `_get_email_tool`: `None` when no account is configured; the named
account when the (truthy, string) `account` argument names one; otherwise
the first configured account. -/
def getEmailTool (tools : List (String × EmailToolFns)) (account : Option DVal) :
    Option EmailToolFns :=
  match tools with
  | [] => none
  | t0 :: _ =>
    match account with
    | none => some t0.2
    | some v =>
      if truthy v then
        match v with
        | .str s =>
          match tools.lookup s with
          | some t => some t
          | none => some t0.2
        | _ => some t0.2
      else some t0.2

/-- `await self._send_file_to_user(recipient_id, path, channel)`: raises
`TypeError` when the slot is unconfigured, otherwise only an effect (the
arguments are consumed by the channel). -/
def callSendFile {α : Type} (slot : Option Unit) (recipient : String) (path : α)
    (channel : String) : Except PyErr Unit :=
  match slot, recipient, path, channel with
  | some _, _, _, _ => .ok ()
  | none, _, _, _ => .error .typeError

/-- `ToolRegistry.dispatch`.  `ext` stands for the module-level tool
functions the branches import (`browser_*`, `take_screenshot`,
`linkedin_*`, `instagram_*`, `generate_image`), keyed by function name and
applied to the argument values the source passes (the browser
configuration `**bk`, identical for every such call, is absorbed into the
oracle).  The result is the returned string, or the exception `dispatch`
raises. -/
def ToolRegistry.dispatch (reg : ToolRegistry) (ext : String → List DVal → String)
    (tool_name : String) (args : DArgs) (sender_id channel recipient_id : String) :
    Except PyErr String :=
  let approver : DVal := .appr reg.approver_factory.isSome
  if tool_name = "bash" then do
    let command ← getItem args "command"
    match reg.bash_fn with
    | none => .error .typeError
    | some f => .ok (f command approver (getValD args "timeout" (.num 30)))
  else if tool_name = "file_read" then do
    let path ← getItem args "path"
    match reg.file_read_fn with
    | none => .error .typeError
    | some f => .ok (f path (getValD args "max_bytes" (.num 100000)))
  else if tool_name = "file_write" then do
    let path ← getItem args "path"
    let content ← getItem args "content"
    match reg.file_write_fn with
    | none => .error .typeError
    | some f => .ok (f path content approver)
  else if tool_name = "file_list" then do
    let directory ← getItem args "directory"
    match reg.file_list_fn with
    | none => .error .typeError
    | some f => .ok (f directory (getValD args "show_hidden" (.bool false)))
  else if tool_name = "file_send" then do
    let path ← getItem args "path"
    let _ ← callSendFile reg.send_file_to_user recipient_id path channel
    .ok ("[OK] Sent " ++ valStr path ++ " to user")
  else if tool_name = "browser_navigate" then do
    let url ← getItem args "url"
    .ok (ext "browser_navigate" [url])
  else if tool_name = "browser_click" then do
    let selector ← getItem args "selector"
    .ok (ext "browser_click" [selector])
  else if tool_name = "browser_type" then do
    let selector ← getItem args "selector"
    let text ← getItem args "text"
    .ok (ext "browser_type" [selector, text])
  else if tool_name = "browser_get_text" then
    .ok (ext "browser_get_text" [getValD args "selector" (.str "body")])
  else if tool_name = "browser_screenshot" then do
    let path := ext "browser_screenshot" []
    if !pyStartswith path "[ERROR]" then do
      let _ ← callSendFile reg.send_file_to_user recipient_id path channel
      .ok "[OK] Screenshot sent"
    else .ok path
  else if tool_name = "screenshot" then do
    let target := getValD args "target" (.str "desktop")
    let path := ext "take_screenshot" [target]
    if !pyStartswith path "[ERROR]" then do
      let _ ← callSendFile reg.send_file_to_user recipient_id path channel
      .ok ("[OK] " ++ valStr target ++ " screenshot sent")
    else .ok path
  else if tool_name = "email_list" then
    match getEmailTool reg.email_tools (getOpt args "account") with
    | none => .ok "[ERROR] Email not configured"
    | some et =>
      .ok (et.list_emails (getValD args "count" (.num 10)) (getValD args "folder" (.str "INBOX")))
  else if tool_name = "email_read" then
    match getEmailTool reg.email_tools (getOpt args "account") with
    | none => .ok "[ERROR] Email not configured"
    | some et => do
      let message_id ← getItem args "message_id"
      .ok (et.read_email message_id)
  else if tool_name = "email_send" then
    match getEmailTool reg.email_tools (getOpt args "account") with
    | none => .ok "[ERROR] Email not configured"
    | some et => do
      let toAddr ← getItem args "to"
      let subject ← getItem args "subject"
      let body ← getItem args "body"
      .ok (et.send_email toAddr subject body approver)
  else if tool_name = "linkedin_get_feed" then
    .ok (ext "linkedin_get_feed" [])
  else if tool_name = "linkedin_get_notifications" then
    .ok (ext "linkedin_get_notifications" [])
  else if tool_name = "linkedin_get_messages" then
    .ok (ext "linkedin_get_messages" [])
  else if tool_name = "linkedin_get_pages" then
    .ok (ext "linkedin_get_pages" [])
  else if tool_name = "linkedin_connect" then do
    let profile_url ← getItem args "profile_url"
    .ok (ext "linkedin_connect" [profile_url, getValD args "message" (.str ""), approver])
  else if tool_name = "linkedin_comment" then do
    let post_url ← getItem args "post_url"
    let text ← getItem args "text"
    .ok (ext "linkedin_comment" [post_url, text, approver])
  else if tool_name = "linkedin_send_message" then do
    let recipient ← getItem args "recipient"
    let text ← getItem args "text"
    .ok (ext "linkedin_send_message" [recipient, text, approver])
  else if tool_name = "linkedin_post" then do
    let text ← getItem args "text"
    .ok (ext "linkedin_post" [text, approver])
  else if tool_name = "linkedin_page_post" then do
    let page_name ← getItem args "page_name"
    let text ← getItem args "text"
    .ok (ext "linkedin_page_post" [page_name, text, approver])
  else if tool_name = "instagram_get_feed" then
    .ok (ext "instagram_get_feed" [])
  else if tool_name = "instagram_get_notifications" then
    .ok (ext "instagram_get_notifications" [])
  else if tool_name = "instagram_get_messages" then
    .ok (ext "instagram_get_messages" [])
  else if tool_name = "instagram_follow" then do
    let profile_url ← getItem args "profile_url"
    .ok (ext "instagram_follow" [profile_url, approver])
  else if tool_name = "instagram_like" then do
    let post_url ← getItem args "post_url"
    .ok (ext "instagram_like" [post_url, approver])
  else if tool_name = "instagram_comment" then do
    let post_url ← getItem args "post_url"
    let text ← getItem args "text"
    .ok (ext "instagram_comment" [post_url, text, approver])
  else if tool_name = "instagram_send_message" then do
    let recipient ← getItem args "recipient"
    let text ← getItem args "text"
    .ok (ext "instagram_send_message" [recipient, text, approver])
  else if tool_name = "instagram_post" then do
    let image_path ← getItem args "image_path"
    .ok (ext "instagram_post" [image_path, getValD args "caption" (.str ""), approver])
  else if tool_name = "remember" then
    match reg.history with
    | none => .ok "[ERROR] Memory not available"
    | some _ => do
      let key ← getItem args "key"
      let value ← getItem args "value"
      .ok ("✅ Remembered: " ++ valStr key ++ " = " ++ valStr value)
  else if tool_name = "forget" then
    match reg.history with
    | none => .ok "[ERROR] Memory not available"
    | some h => do
      let key ← getItem args "key"
      if h.forget_memory sender_id channel key then .ok ("✅ Forgotten: " ++ valStr key)
      else .ok ("Nothing stored under '" ++ valStr key ++ "'")
  else if tool_name = "list_memories" then
    match reg.history with
    | none => .ok "[ERROR] Memory not available"
    | some h =>
      let memories := h.list_memories sender_id channel
      if memories.isEmpty then .ok "No memories stored yet."
      else .ok (String.intercalate "\n" (memories.map fun kv => "• " ++ kv.1 ++ ": " ++ kv.2))
  else if tool_name = "generate_image" then do
    let prompt ← getItem args "prompt"
    let path := ext "generate_image" [prompt, getValD args "aspect_ratio" (.str "1:1"),
      getValD args "style_preset" (.str ""), getValD args "negative_prompt" (.str ""),
      .str reg.stability_api_key]
    if !pyStartswith path "[ERROR]" then do
      let _ ← callSendFile reg.send_file_to_user recipient_id path channel
      .ok "[OK] Image generated and sent"
    else .ok path
  else
    .ok ("[ERROR] Unknown tool: " ++ tool_name)

/-- The tool names `dispatch` has a branch for (everything short of the
final `[ERROR] Unknown tool` branch). -/
def KNOWN_TOOLS : List String := [
  "bash", "file_read", "file_write", "file_list", "file_send",
  "browser_navigate", "browser_click", "browser_type", "browser_get_text",
  "browser_screenshot", "screenshot",
  "email_list", "email_read", "email_send",
  "linkedin_get_feed", "linkedin_get_notifications", "linkedin_get_messages",
  "linkedin_get_pages", "linkedin_connect", "linkedin_comment",
  "linkedin_send_message", "linkedin_post", "linkedin_page_post",
  "instagram_get_feed", "instagram_get_notifications", "instagram_get_messages",
  "instagram_follow", "instagram_like", "instagram_comment",
  "instagram_send_message", "instagram_post",
  "remember", "forget", "list_memories", "generate_image"]

/-- A fully configured registry (every slot wired, one email account, a
memory store), as `Butler.start` builds one; the capability payloads are
immaterial stand-ins. -/
def exampleRegistry : ToolRegistry where
  bash_fn := some fun _ _ _ => "bash-result"
  file_read_fn := some fun _ _ => "file-contents"
  file_write_fn := some fun _ _ _ => "written"
  file_list_fn := some fun _ _ => "listing"
  email_tools := [("default", ⟨fun _ _ => "emails", fun _ => "email", fun _ _ _ _ => "sent"⟩)]
  send_file_to_user := some ()
  approver_factory := some ()
  history := some ⟨fun _ _ _ => true, fun _ _ => [("k", "v")]⟩
  stability_api_key := "key"

/-- A registry as `ToolRegistry.__init__` leaves it before `configure`:
every slot unconfigured, no email accounts, no history. -/
def bareRegistry : ToolRegistry where
  bash_fn := none
  file_read_fn := none
  file_write_fn := none
  file_list_fn := none
  email_tools := []
  send_file_to_user := none
  approver_factory := none
  history := none
  stability_api_key := ""

example : exampleRegistry.dispatch (fun _ _ => "") "bash" [("command", .str "ls")] "s" "c" "r"
    = .ok "bash-result" := rfl
example : exampleRegistry.dispatch (fun _ _ => "") "nosuch" [] "s" "c" "r"
    = .ok "[ERROR] Unknown tool: nosuch" := rfl
example : exampleRegistry.dispatch (fun _ _ => "") "bash" [] "s" "c" "r"
    = .error (.keyError "command") := rfl

/-! ## Theorems -/

/-- The enumeration's order is reflexive. -/
theorem RiskLevel.le_self : ∀ a : RiskLevel, a ≤ a := by decide

/-- Python's `max` dominates its first argument. -/
theorem RiskLevel.left_le_max : ∀ a b : RiskLevel, a ≤ max a b := by decide

/-- CRITICAL is the top tier. -/
theorem RiskLevel.le_critical : ∀ a : RiskLevel, a ≤ .CRITICAL := by decide

/-- Monotonicity of the classifier: the result never drops below the tool's
base tier. -/
theorem classify_ge_base (t : String) (args : StrArgs) :
    (TOOL_BASE_RISKS.lookup t).getD .MEDIUM ≤ classify_tool t args := by
  simp only [classify_tool]
  split
  · exact RiskLevel.left_le_max _ _
  · split
    · split
      · exact RiskLevel.le_critical _
      · exact RiskLevel.le_self _
    · exact RiskLevel.le_self _

/-- When no rule matches, the scan falls through to MEDIUM. -/
theorem scanRules_default (cmd : String) :
    ∀ rules : List (Re × RiskLevel),
      (∀ r ∈ rules, reSearch r.1 cmd = false) → scanRules cmd rules = .MEDIUM := by
  intro rules h
  induction rules with
  | nil => rfl
  | cons hd tl ih =>
    have hhd : reSearch hd.1 cmd = false := h hd (List.mem_cons_self hd tl)
    simp only [scanRules, hhd, Bool.false_eq_true, if_false]
    exact ih fun r hr => h r (List.mem_cons_of_mem hd hr)

/-- First match wins: if every rule before `rule` fails and `rule` matches,
the scan returns `rule`'s level. -/
theorem scanRules_first (cmd : String) :
    ∀ (early : List (Re × RiskLevel)) (rule : Re × RiskLevel) (late : List (Re × RiskLevel)),
      (∀ r ∈ early, reSearch r.1 cmd = false) → reSearch rule.1 cmd = true →
      scanRules cmd (early ++ rule :: late) = rule.2 := by
  intro early
  induction early with
  | nil =>
    intro rule late _ hrule
    simp only [List.nil_append, scanRules, hrule, if_true]
  | cons hd tl ih =>
    intro rule late hearly hrule
    have hhd : reSearch hd.1 cmd = false := hearly hd (List.mem_cons_self hd tl)
    simp only [List.cons_append, scanRules, hhd, Bool.false_eq_true, if_false]
    exact ih rule late (fun r hr => hearly r (List.mem_cons_of_mem hd hr)) hrule

/-- C5: `classify` is deterministic (it is a pure function of its arguments)
and monotonic — `classify_tool t a` is at least `t`'s base tier
(`TOOL_BASE_RISKS.get(t, MEDIUM)`) for all inputs; for the `bash` tool the
effective tier is `max(base tier, pattern tier)` where the pattern tier is
the ordered first-match-wins scan of `_BASH_RULES`, defaulting to MEDIUM
when no pattern matches. -/
theorem classify_monotone_first_match (t : String) (args : StrArgs) (cmd : String) :
    (TOOL_BASE_RISKS.lookup t).getD .MEDIUM ≤ classify_tool t args
    ∧ classify_tool "bash" args
        = max ((TOOL_BASE_RISKS.lookup "bash").getD .MEDIUM)
            (classify_bash (argsGetD args "command" ""))
    ∧ ((∀ r ∈ BASH_RULES, reSearch r.1 cmd = false) → classify_bash cmd = .MEDIUM)
    ∧ (∀ (early : List (Re × RiskLevel)) (rule : Re × RiskLevel)
        (late : List (Re × RiskLevel)),
        BASH_RULES = early ++ rule :: late →
        (∀ r ∈ early, reSearch r.1 cmd = false) →
        reSearch rule.1 cmd = true →
        classify_bash cmd = rule.2) := by
  refine ⟨classify_ge_base t args, rfl, scanRules_default cmd BASH_RULES, ?_⟩
  intro early rule late heq hearly hrule
  unfold classify_bash
  rw [heq]
  exact scanRules_first cmd early rule late hearly hrule

/-- C5 witness: the parts of `classify_monotone_first_match` evaluated at
concrete inputs — `bash`/`ls` for monotonicity and the max shape, the
unmatched command `foobar` for the MEDIUM default, and `mkfs /dev/sda1`,
whose first matching rule is the fourth (CRITICAL) one. -/
theorem classify_monotone_first_match_witness :
    (TOOL_BASE_RISKS.lookup "bash").getD .MEDIUM ≤ classify_tool "bash" [("command", "ls")]
    ∧ classify_tool "bash" [("command", "ls")]
        = max ((TOOL_BASE_RISKS.lookup "bash").getD .MEDIUM)
            (classify_bash (argsGetD [("command", "ls")] "command" ""))
    ∧ classify_bash "foobar" = .MEDIUM
    ∧ classify_bash "mkfs /dev/sda1" = (reMkfsFormat, RiskLevel.CRITICAL).2 :=
  ⟨(classify_monotone_first_match "bash" [("command", "ls")] "foobar").1,
   (classify_monotone_first_match "bash" [("command", "ls")] "foobar").2.1,
   (classify_monotone_first_match "bash" [("command", "ls")] "foobar").2.2.1 (by decide),
   (classify_monotone_first_match "bash" [("command", "ls")] "mkfs /dev/sda1").2.2.2
     (BASH_RULES.take 3) (reMkfsFormat, .CRITICAL) (BASH_RULES.drop 4)
     (by rfl) (by decide) (by decide)⟩

/-- C6 counterexample: the destructive-pattern escalation does not hold
"regardless of which tool t is" — for `file_read` the command string is
never consulted, so a command matching the recursive-delete-of-root
CRITICAL pattern still classifies SAFE; moreover the claim's example
command `rm -rf /` does not even reach CRITICAL for `bash`: the pattern
`rm\s+-[rf]+\s*/\b` requires a word character after the slash, so the bare
command falls through to the any-`rm` HIGH rule. -/
theorem classify_destructive_cex :
    reSearch reRmRoot "rm -rf /home" = true
    ∧ classify_tool "file_read" [("command", "rm -rf /home")] = .SAFE
    ∧ classify_tool "file_read" [("command", "rm -rf /home")] ≠ .CRITICAL
    ∧ classify_tool "bash" [("command", "rm -rf /")] = .HIGH
    ∧ classify_tool "bash" [("command", "rm -rf /")] ≠ .CRITICAL := by
  exact ⟨by decide, by decide, by decide, by decide, by decide⟩

/-- C6 (amended): only for the `bash` tool does the command string control
the tier — a command matching one of the five CRITICAL `_BASH_RULES`
patterns (recursive delete of root with a path after the slash,
`--no-preserve-root`, fork bomb, `dd` from a random/zero device, mkfs or
format, redirect onto a disk device) classifies as the maximum tier
CRITICAL.  For other tools the command string is ignored. -/
theorem critical_pattern_bash_only (cmd : String)
    (h : (reSearch reRmRoot cmd || reSearch reForkBomb cmd || reSearch reDdDev cmd
      || reSearch reMkfsFormat cmd || reSearch reDevSd cmd) = true) :
    classify_tool "bash" [("command", cmd)] = .CRITICAL := by
  have hb : classify_bash cmd = .CRITICAL := by
    simp only [Bool.or_eq_true] at h
    unfold classify_bash BASH_RULES
    rcases h with ((((h0 | h1) | h2) | h3) | h4)
    · simp only [scanRules, h0, if_true]
    · by_cases p0 : reSearch reRmRoot cmd <;>
        simp only [scanRules, p0, h1, if_true, Bool.false_eq_true, if_false]
    · by_cases p0 : reSearch reRmRoot cmd <;> by_cases p1 : reSearch reForkBomb cmd <;>
        simp only [scanRules, p0, p1, h2, if_true, Bool.false_eq_true, if_false]
    · by_cases p0 : reSearch reRmRoot cmd <;> by_cases p1 : reSearch reForkBomb cmd <;>
        by_cases p2 : reSearch reDdDev cmd <;>
        simp only [scanRules, p0, p1, p2, h3, if_true, Bool.false_eq_true, if_false]
    · by_cases p0 : reSearch reRmRoot cmd <;> by_cases p1 : reSearch reForkBomb cmd <;>
        by_cases p2 : reSearch reDdDev cmd <;> by_cases p3 : reSearch reMkfsFormat cmd <;>
        simp only [scanRules, p0, p1, p2, p3, h4, if_true, Bool.false_eq_true, if_false]
  have hshape : classify_tool "bash" [("command", cmd)]
      = max RiskLevel.MEDIUM (classify_bash cmd) := rfl
  rw [hshape, hb]
  decide

/-- C6 witness: `rm -rf /home` matches the first CRITICAL pattern and
classifies CRITICAL for `bash`. -/
theorem critical_pattern_bash_only_witness :
    classify_tool "bash" [("command", "rm -rf /home")] = .CRITICAL :=
  critical_pattern_bash_only "rm -rf /home" (by decide)

/-- C10: a command matching a blocklist pattern is returned as the
`[BLOCKED]` message with no approval round-trip and no execution — for
every approver configuration (present or not), whatever
`request_approval` would have answered (covering the approve-all flag and
a user who would approve), every execution oracle, every timeout and every
auto-approve level. -/
theorem blocklist_blocks_unconditionally (command : String)
    (approver_present approval_result : Bool) (exec : ExecOutcome) (timeout : Int)
    (auto_approve_below : RiskLevel) (h : is_blocked command = true) :
    run_bash command approver_present approval_result exec timeout auto_approve_below
      = ⟨.blocked command, false, false⟩ := by
  unfold run_bash
  simp only [h, if_true]

/-- C10 witness: `mkfs /dev/sda1` (matching `\bmkfs\b`) is blocked even with
an approver present that would approve. -/
theorem blocklist_blocks_unconditionally_witness :
    run_bash "mkfs /dev/sda1" true true (.completed 0 "formatted") 30 .LOW
      = ⟨.blocked "mkfs /dev/sda1", false, false⟩ :=
  blocklist_blocks_unconditionally "mkfs /dev/sda1" true true (.completed 0 "formatted")
    30 .LOW (by decide)

/-- C1: evaluation of the code at the failing input.  Starting from a fresh
manager, a `request_approval` for a HIGH-risk action suspends with
correlation id "A" as current; a second overlapping `request_approval`
(id "B") arriving before the first resolves is neither serialized nor
queued nor rejected: both futures sit in `_pending` (two PendingApprovals
at once) and `_current_id` is silently repointed from "A" to "B", so a
subsequent yes/no reply can only resolve "B". -/
theorem approval_overlap_unserialized :
    (request_approval_start .LOW initialApproval .HIGH "A").prompt_sent = true
    ∧ (request_approval_start .LOW initialApproval .HIGH "A").state.pending = ["A"]
    ∧ (request_approval_start .LOW initialApproval .HIGH "A").state.current_id = some "A"
    ∧ (request_approval_start .LOW
        (request_approval_start .LOW initialApproval .HIGH "A").state .HIGH "B").prompt_sent
        = true
    ∧ (request_approval_start .LOW
        (request_approval_start .LOW initialApproval .HIGH "A").state .HIGH "B").state.pending
        = ["A", "B"]
    ∧ (request_approval_start .LOW
        (request_approval_start .LOW initialApproval .HIGH "A").state .HIGH "B").state.current_id
        = some "B"
    ∧ (handle_reply
        (request_approval_start .LOW
          (request_approval_start .LOW initialApproval .HIGH "A").state .HIGH "B").state
        "no").resolved = [("B", false)] := by
  decide

/-- The loop makes at most `n` further model calls with `n` iterations
left. -/
theorem runApiAux_calls_le (model : List ChatMsg → ModelResp)
    (dispatchFn : String → StrArgs → String) :
    ∀ (n : Nat) (messages : List ChatMsg) (calls : Nat),
      (runApiAux model dispatchFn n messages calls).2 ≤ calls + n := by
  intro n
  induction n with
  | zero => intro messages calls; simp [runApiAux]
  | succ n ih =>
    intro messages calls
    simp only [runApiAux]
    split
    · simp
    · split
      · exact le_trans (ih _ (calls + 1)) (by omega)
      · simp

/-- Against a model that always stops for tool use, the loop burns all `n`
remaining iterations and ends with the cap message. -/
theorem runApiAux_all_tool_use (model : List ChatMsg → ModelResp)
    (dispatchFn : String → StrArgs → String)
    (hm : ∀ messages, (model messages).stop_reason = "tool_use") :
    ∀ (n : Nat) (messages : List ChatMsg) (calls : Nat),
      runApiAux model dispatchFn n messages calls
        = ("[Error] Maximum tool-use iterations reached. Please try a simpler request.",
           calls + n) := by
  intro n
  induction n with
  | zero => intro messages calls; simp [runApiAux]
  | succ n ih =>
    intro messages calls
    simp only [runApiAux, hm messages]
    rw [if_neg (by decide : ¬("tool_use" = "end_turn")), if_pos trivial, ih]
    have : calls + 1 + n = calls + (n + 1) := by omega
    rw [this]

/-- C2: for every model service, dispatcher and starting context, `_run_api`
makes at most `MAX_ITERATIONS` (10) model calls; and if the model answers
every call with the "tool_use" stop reason (the spec's "tool-requests"),
the loop terminates after exactly `MAX_ITERATIONS` model calls with the
fixed cap-exceeded message. -/
theorem engine_iteration_cap (model : List ChatMsg → ModelResp)
    (dispatchFn : String → StrArgs → String) (messages : List ChatMsg) :
    (run_api model dispatchFn messages).2 ≤ MAX_ITERATIONS
    ∧ ((∀ msgs, (model msgs).stop_reason = "tool_use") →
        run_api model dispatchFn messages
          = ("[Error] Maximum tool-use iterations reached. Please try a simpler request.",
             MAX_ITERATIONS)) := by
  constructor
  · simpa using runApiAux_calls_le model dispatchFn MAX_ITERATIONS messages 0
  · intro hm
    simpa using runApiAux_all_tool_use model dispatchFn hm MAX_ITERATIONS messages 0

/-- C2 witness: a model that always requests tools, evaluated from the empty
context: at most 10 calls, and exactly the cap message after exactly 10. -/
theorem engine_iteration_cap_witness :
    (run_api (fun _ => ⟨"tool_use", []⟩) (fun _ _ => "") []).2 ≤ MAX_ITERATIONS
    ∧ run_api (fun _ => ⟨"tool_use", []⟩) (fun _ _ => "") []
        = ("[Error] Maximum tool-use iterations reached. Please try a simpler request.",
           MAX_ITERATIONS) :=
  ⟨(engine_iteration_cap (fun _ => ⟨"tool_use", []⟩) (fun _ _ => "") []).1,
   (engine_iteration_cap (fun _ => ⟨"tool_use", []⟩) (fun _ _ => "") []).2 fun _ => rfl⟩

/-- Boolean `contains` agrees with membership. -/
theorem contains_mem {α : Type} [BEq α] [LawfulBEq α] (l : List α) (a : α) :
    l.contains a = true ↔ a ∈ l := by
  simp [List.contains, List.elem_iff]

/-- A manager whose approve-all flag is set answers any `request_approval`
immediately with `True`, sending nothing and leaving the state unchanged. -/
theorem request_immediate_of_yes_all (auto_approve_below : RiskLevel) (s : ApprovalState)
    (risk : RiskLevel) (request_id : String) (h : s.yes_all = true) :
    request_approval_start auto_approve_below s risk request_id = ⟨s, true, false⟩ := by
  unfold request_approval_start
  rw [if_pos (by simp [h])]

/-- Every operation of the manager preserves a set approve-all flag
(`reset_yes_all` exists in the source but is never called). -/
theorem yes_all_preserved (s : ApprovalState) (op : ApprovalOp) (h : s.yes_all = true) :
    (applyOp s op).yes_all = true := by
  cases op with
  | start auto risk rid =>
    rw [show applyOp s (.start auto risk rid)
      = (request_approval_start auto s risk rid).state from rfl]
    rw [request_immediate_of_yes_all auto s risk rid h]
    exact h
  | reply text =>
    show (handle_reply s text).state.yes_all = true
    simp only [handle_reply]
    by_cases hya : YES_ALL_PHRASES.contains (normalizeReply text) = true
    · rw [if_pos hya]
    · rw [if_neg hya]
      by_cases hyn : (!(YES_PHRASES.contains (normalizeReply text)
          || NO_PHRASES.contains (normalizeReply text))) = true
      · rw [if_pos hyn]; exact h
      · rw [if_neg hyn]
        cases hcur : s.current_id with
        | none => exact h
        | some cid =>
          dsimp only
          by_cases hp : s.pending.contains cid = true
          · rw [if_pos hp]; exact h
          · rw [if_neg hp]; exact h
  | timeoutAt rid =>
    show (timeout_step s rid).yes_all = true
    simp only [timeout_step]
    split
    · exact h
    · exact h

/-- The approve-all flag survives any sequence of operations. -/
theorem yes_all_preserved_ops (s : ApprovalState) (ops : List ApprovalOp)
    (h : s.yes_all = true) : (ops.foldl applyOp s).yes_all = true := by
  induction ops generalizing s with
  | nil => exact h
  | cons op rest ih => exact ih (applyOp s op) (yes_all_preserved s op h)

/-- C7: `request_approval` returns `True` immediately — no prompt sent, no
suspension, no state change — whenever the risk is at most the
auto-approve ceiling or the approve-all flag is set; a "yes all" reply
sets the flag; and once set, the flag survives every subsequent operation,
so every subsequent `request_approval` call returns `True` immediately
without sending a prompt. -/
theorem auto_approve_and_yes_all (auto_approve_below : RiskLevel) (s s2 : ApprovalState)
    (risk : RiskLevel) (request_id text : String) :
    ((risk ≤ auto_approve_below ∨ s.yes_all = true) →
      request_approval_start auto_approve_below s risk request_id = ⟨s, true, false⟩)
    ∧ (normalizeReply text ∈ YES_ALL_PHRASES → (handle_reply s text).state.yes_all = true)
    ∧ (s2.yes_all = true → ∀ ops : List ApprovalOp,
        (ops.foldl applyOp s2).yes_all = true
        ∧ request_approval_start auto_approve_below (ops.foldl applyOp s2) risk request_id
            = ⟨ops.foldl applyOp s2, true, false⟩) := by
  refine ⟨?_, ?_, ?_⟩
  · intro h
    rcases h with hle | hya
    · unfold request_approval_start
      rw [if_pos (by simp [hle])]
    · exact request_immediate_of_yes_all _ _ _ _ hya
  · intro h
    unfold handle_reply
    rw [if_pos ((contains_mem _ _).mpr h)]
  · intro h ops
    refine ⟨yes_all_preserved_ops s2 ops h, ?_⟩
    exact request_immediate_of_yes_all _ _ _ _ (yes_all_preserved_ops s2 ops h)

/-- C7 witness: SAFE risk is auto-approved with nothing sent; "yes all" sets
the flag; from a flag-set state, after a HIGH-risk request, an unrelated
reply and a timeout event, a HIGH-risk `request_approval` still returns
`True` immediately with no prompt. -/
theorem auto_approve_and_yes_all_witness :
    request_approval_start .LOW initialApproval .SAFE "A"
      = ⟨initialApproval, true, false⟩
    ∧ (handle_reply initialApproval "yes all").state.yes_all = true
    ∧ (([ApprovalOp.start .LOW .HIGH "A", .reply "hello",
          .timeoutAt "A"].foldl applyOp ⟨[], none, true⟩).yes_all = true
       ∧ request_approval_start .LOW
           ([ApprovalOp.start .LOW .HIGH "A", .reply "hello",
             .timeoutAt "A"].foldl applyOp ⟨[], none, true⟩) .HIGH "B"
           = ⟨[ApprovalOp.start .LOW .HIGH "A", .reply "hello",
               .timeoutAt "A"].foldl applyOp ⟨[], none, true⟩, true, false⟩) :=
  ⟨(auto_approve_and_yes_all .LOW initialApproval ⟨[], none, true⟩ .SAFE "A" "yes all").1
     (Or.inl (by decide)),
   (auto_approve_and_yes_all .LOW initialApproval ⟨[], none, true⟩ .SAFE "A" "yes all").2.1
     (by decide),
   (auto_approve_and_yes_all .LOW initialApproval ⟨[], none, true⟩ .HIGH "B" "yes all").2.2
     rfl [ApprovalOp.start .LOW .HIGH "A", .reply "hello", .timeoutAt "A"]⟩

/-- C8 counterexample: with no pending request at all, `handle_reply "yes
all"` still returns `True` (the message is consumed: the flag is set),
refuting "returns false whenever there is no pending request". -/
theorem handle_reply_no_pending_cex :
    initialApproval.pending = []
    ∧ initialApproval.current_id = none
    ∧ (handle_reply initialApproval "yes all").consumed = true
    ∧ (handle_reply initialApproval "yes all").state.yes_all = true := by
  decide

/-- C8 (amended): `handle_reply` returns `True` exactly when it consumed the
message — that is, when the normalized text is a yes-all phrase (always
consumed, even with no pending request), or is a yes/no phrase while the
current correlation id points at a pending request.  It returns `False`
whenever the text matches no phrase, and for yes/no phrases whenever there
is no valid current pending request. -/
theorem handle_reply_consumption (s : ApprovalState) (text : String) :
    (handle_reply s text).consumed = true ↔
      (normalizeReply text ∈ YES_ALL_PHRASES
       ∨ ((normalizeReply text ∈ YES_PHRASES ∨ normalizeReply text ∈ NO_PHRASES)
          ∧ ∃ cid, s.current_id = some cid ∧ cid ∈ s.pending)) := by
  simp only [handle_reply]
  by_cases h1 : YES_ALL_PHRASES.contains (normalizeReply text) = true
  · rw [if_pos h1]
    simp only [true_iff]
    exact Or.inl ((contains_mem _ _).mp h1)
  · rw [if_neg h1]
    have h1m : normalizeReply text ∉ YES_ALL_PHRASES := fun hm =>
      h1 ((contains_mem _ _).mpr hm)
    by_cases h2 : (YES_PHRASES.contains (normalizeReply text)
        || NO_PHRASES.contains (normalizeReply text)) = true
    · rw [if_neg (by rw [h2]; decide)]
      cases hcur : s.current_id with
      | none =>
        dsimp only
        simp only [Bool.false_eq_true, false_iff, not_or]
        refine ⟨h1m, ?_⟩
        rintro ⟨-, cid', hcid', -⟩
        cases hcid'
      | some cid =>
        dsimp only
        by_cases h3 : s.pending.contains cid = true
        · rw [if_pos h3]
          simp only [true_iff]
          refine Or.inr ⟨?_, cid, rfl, (contains_mem _ _).mp h3⟩
          rcases Bool.or_eq_true_iff.mp h2 with hy | hn
          · exact Or.inl ((contains_mem _ _).mp hy)
          · exact Or.inr ((contains_mem _ _).mp hn)
        · rw [if_neg h3]
          simp only [Bool.false_eq_true, false_iff, not_or]
          refine ⟨h1m, ?_⟩
          rintro ⟨-, cid', hcid', hmem⟩
          cases hcid'
          exact h3 ((contains_mem _ _).mpr hmem)
    · rw [if_pos (by simpa using h2)]
      simp only [Bool.false_eq_true, false_iff, not_or]
      refine ⟨h1m, ?_⟩
      rintro ⟨hy | hn, -⟩
      · exact h2 (Bool.or_eq_true_iff.mpr (Or.inl ((contains_mem _ _).mpr hy)))
      · exact h2 (Bool.or_eq_true_iff.mpr (Or.inr ((contains_mem _ _).mpr hn)))

/-- C8 witness: a yes reply with a matching pending request is consumed; with
the consumption characterization instantiated at a concrete state. -/
theorem handle_reply_consumption_witness :
    (handle_reply ⟨["A"], some "A", false⟩ "yes").consumed = true ↔
      (normalizeReply "yes" ∈ YES_ALL_PHRASES
       ∨ ((normalizeReply "yes" ∈ YES_PHRASES ∨ normalizeReply "yes" ∈ NO_PHRASES)
          ∧ ∃ cid, (ApprovalState.mk ["A"] (some "A") false).current_id = some cid
              ∧ cid ∈ (ApprovalState.mk ["A"] (some "A") false).pending)) :=
  handle_reply_consumption ⟨["A"], some "A", false⟩ "yes"

/-- `_build_context` only ever prepends: the given messages are a suffix of
its output. -/
theorem build_context_suffix (memory_block summaries_text : String)
    (messages : List CtxMsg) :
    ∃ leading, build_context memory_block summaries_text messages = leading ++ messages := by
  unfold build_context
  dsimp only
  by_cases hc : ((if memory_block ≠ "" then [memory_block] else []) ++
      (if summaries_text ≠ "" then ["Summary of our past conversations:\n" ++ summaries_text]
       else [])).isEmpty = true
  · refine ⟨[], ?_⟩
    rw [if_pos hc, List.nil_append]
  · refine ⟨[⟨"user", .textBlocks ("\n\n".intercalate
        ((if memory_block ≠ "" then [memory_block] else []) ++
         (if summaries_text ≠ "" then
            ["Summary of our past conversations:\n" ++ summaries_text] else [])))⟩,
      ⟨"assistant", .textBlocks "Got it — I have that context in mind."⟩], ?_⟩
    rw [if_neg hc]

/-- `_build_context` applied to stripped kept-older ++ recent messages keeps
the recent ones as a suffix. -/
theorem build_context_keeps_suffix (memory_block summaries_text : String)
    (front rear : List MsgRow) :
    ∃ leading, build_context memory_block summaries_text ((front ++ rear).map stripRow)
      = leading ++ rear.map stripRow := by
  obtain ⟨p, hp⟩ := build_context_suffix memory_block summaries_text
    ((front ++ rear).map stripRow)
  exact ⟨p ++ front.map stripRow, by rw [hp, List.map_append, List.append_assoc]⟩

/-- C3: for every session state (message list), every token budget ≥ 0 (a
budget of 0 included) and every `keep_recent`, the context `load` returns
ends with the most recent K turns of the session — stripped of internal
fields but otherwise verbatim and in order; they are never evicted or
truncated, however far the budget is overshot. -/
theorem recent_turns_always_kept (token_budget : Int) (keep_recent : Nat)
    (memory_block summaries_text : String) (all_messages : List MsgRow)
    (hb : 0 ≤ token_budget) :
    ∃ leading,
      load_messages token_budget keep_recent memory_block summaries_text all_messages
        = leading ++ (splitRecent keep_recent all_messages).1.map stripRow := by
  unfold load_messages
  split
  · rename_i h
    have hnil : all_messages = [] := by
      cases all_messages with
      | nil => rfl
      | cons a l => simp at h
    subst hnil
    have hsplit : (splitRecent keep_recent ([] : List MsgRow)).1 = [] := by
      unfold splitRecent
      split <;> simp
    rw [hsplit]
    simp only [List.map_nil, List.append_nil]
    exact ⟨_, rfl⟩
  · dsimp only
    exact build_context_keeps_suffix memory_block summaries_text _ _

/-- C3 witness: two stored turns, a token budget of exactly 0 and the default
`keep_recent = 10`: the turns survive in the output. -/
theorem recent_turns_always_kept_witness :
    ∃ leading,
      load_messages 0 10 "" ""
          [⟨1, "user", .raw "hello", 5⟩, ⟨2, "assistant", .raw "hi", 3⟩]
        = leading ++ (splitRecent 10
            [⟨1, "user", .raw "hello", 5⟩, ⟨2, "assistant", .raw "hi", 3⟩]).1.map stripRow :=
  recent_turns_always_kept 0 10 "" ""
    [⟨1, "user", .raw "hello", 5⟩, ⟨2, "assistant", .raw "hi", 3⟩] (by decide)

/-- Storing the same evicted messages twice adds nothing the second time:
every chunk is covered after the first pass — either it was already
covered, or its own freshly inserted row covers it. -/
theorem summarize_and_store_idem (s : List SummaryRow) (e : List MsgRow)
    (fn : List MsgRow → String) :
    summarize_and_store (summarize_and_store s e fn) e fn
      = summarize_and_store s e fn := by
  unfold summarize_and_store
  dsimp only
  have hnil : (chunked e).filterMap
      (chunkRow ((s ++ (chunked e).filterMap
        (chunkRow (s.map fun r => (r.first_msg_id, r.last_msg_id)) fn)).map
          fun r => (r.first_msg_id, r.last_msg_id)) fn) = [] := by
    rw [List.filterMap_eq_nil_iff]
    intro chunk hchunk
    cases chunk with
    | nil => rfl
    | cons m rest =>
      simp only [chunkRow]
      by_cases hcov : (s.map fun r => (r.first_msg_id, r.last_msg_id)).any
          (fun fl => decide (m.id ≥ fl.1) && decide ((rest.getLastD m).id ≤ fl.2)) = true
      · have hc2 : ((s ++ (chunked e).filterMap
            (chunkRow (s.map fun r => (r.first_msg_id, r.last_msg_id)) fn)).map
              fun r => (r.first_msg_id, r.last_msg_id)).any
            (fun fl => decide (m.id ≥ fl.1) && decide ((rest.getLastD m).id ≤ fl.2))
            = true := by
          rw [List.map_append, List.any_append, hcov, Bool.true_or]
        rw [if_pos hc2]
      · have hrow : chunkRow (s.map fun r => (r.first_msg_id, r.last_msg_id)) fn (m :: rest)
            = some ⟨m.id, (rest.getLastD m).id, fn (m :: rest)⟩ := by
          simp only [chunkRow]
          rw [if_neg hcov]
        have hmem : (⟨m.id, (rest.getLastD m).id, fn (m :: rest)⟩ : SummaryRow)
            ∈ (chunked e).filterMap
              (chunkRow (s.map fun r => (r.first_msg_id, r.last_msg_id)) fn) :=
          List.mem_filterMap.mpr ⟨m :: rest, hchunk, hrow⟩
        have hprm : ((m.id, (rest.getLastD m).id) : Int × Int)
            ∈ ((s ++ (chunked e).filterMap
                (chunkRow (s.map fun r => (r.first_msg_id, r.last_msg_id)) fn)).map
                  fun r => (r.first_msg_id, r.last_msg_id)) :=
          List.mem_map.mpr ⟨_, List.mem_append_right s hmem, rfl⟩
        have hany : ((s ++ (chunked e).filterMap
            (chunkRow (s.map fun r => (r.first_msg_id, r.last_msg_id)) fn)).map
              fun r => (r.first_msg_id, r.last_msg_id)).any
            (fun fl => decide (m.id ≥ fl.1) && decide ((rest.getLastD m).id ≤ fl.2))
            = true :=
          List.any_eq_true.mpr ⟨_, hprm, by simp⟩
        rw [if_pos hany]
  rw [hnil, List.append_nil]

/-- C9: a second `load` of the same session with no new turns appended
creates no new summary row — the evicted range is identical, every chunk
of it is already fully contained in an existing summary's id range and is
skipped, so truncation of the same history is idempotent on the stored
summaries. -/
theorem summaries_idempotent (summaries : List SummaryRow) (token_budget : Int)
    (keep_recent : Nat) (all_messages : List MsgRow) (summarize_fn : List MsgRow → String) :
    load_summaries (load_summaries summaries token_budget keep_recent all_messages
        summarize_fn) token_budget keep_recent all_messages summarize_fn
      = load_summaries summaries token_budget keep_recent all_messages summarize_fn := by
  by_cases h1 : all_messages.isEmpty = true
  · simp [load_summaries, h1]
  · by_cases h2 : (evictedOf token_budget keep_recent all_messages).isEmpty = true
    · simp [load_summaries, h1, h2]
    · simp only [load_summaries, h1, h2, Bool.false_eq_true, if_false]
      exact summarize_and_store_idem summaries
        (evictedOf token_budget keep_recent all_messages) summarize_fn

/-- C9 witness: two turns, `keep_recent = 1` and budget 0, so the older turn
is evicted and summarized on the first `load`; the second `load` leaves
the summary table unchanged. -/
theorem summaries_idempotent_witness :
    load_summaries (load_summaries [] 0 1
        [⟨1, "user", .raw "a", 5⟩, ⟨2, "assistant", .raw "b", 3⟩] (fun _ => "digest")) 0 1
        [⟨1, "user", .raw "a", 5⟩, ⟨2, "assistant", .raw "b", 3⟩] (fun _ => "digest")
      = load_summaries [] 0 1
        [⟨1, "user", .raw "a", 5⟩, ⟨2, "assistant", .raw "b", 3⟩] (fun _ => "digest") :=
  summaries_idempotent [] 0 1
    [⟨1, "user", .raw "a", 5⟩, ⟨2, "assistant", .raw "b", 3⟩] (fun _ => "digest")

/-- C4 counterexample: `dispatch` does raise — on a fully configured
registry, a `bash` call whose argument object lacks the required
`command` key escapes as a `KeyError` instead of coming back as an
`[ERROR]`-style textual result; and on an unconfigured registry a
well-formed `bash` call escapes as a `TypeError` (calling the `None`
slot) rather than as a textual result. -/
theorem dispatch_missing_arg_cex :
    exampleRegistry.dispatch (fun _ _ => "") "bash" [] "s" "c" "r"
      = .error (.keyError "command")
    ∧ exampleRegistry.bash_fn.isSome = true
    ∧ bareRegistry.dispatch (fun _ _ => "") "bash" [("command", .str "ls")] "s" "c" "r"
      = .error .typeError := by
  exact ⟨rfl, rfl, rfl⟩

/-- C4 (amended): `dispatch` turns the failure modes it explicitly handles
into textual results — an unknown tool name, an unconfigured email
capability and an unconfigured memory store come back as `[ERROR] ...`
strings — but it is not exception-free: a missing required argument
(e.g. `bash` without `command`) raises `KeyError` out of `dispatch`
instead of producing a textual result. -/
theorem dispatch_known_failures_textual (reg : ToolRegistry)
    (ext : String → List DVal → String) (args : DArgs)
    (sender_id channel recipient_id t : String) :
    (args.lookup "command" = none →
      reg.dispatch ext "bash" args sender_id channel recipient_id
        = .error (.keyError "command"))
    ∧ (t ∉ KNOWN_TOOLS →
      reg.dispatch ext t args sender_id channel recipient_id
        = .ok ("[ERROR] Unknown tool: " ++ t))
    ∧ (reg.email_tools = [] →
      reg.dispatch ext "email_list" args sender_id channel recipient_id
        = .ok "[ERROR] Email not configured")
    ∧ (reg.history = none →
      reg.dispatch ext "remember" args sender_id channel recipient_id
        = .ok "[ERROR] Memory not available") := by
  refine ⟨?_, ?_, ?_, ?_⟩
  · intro h
    simp [ToolRegistry.dispatch, getItem, h]
    rfl
  · intro h
    simp [KNOWN_TOOLS] at h
    simp [ToolRegistry.dispatch, h]
  · intro h
    simp [ToolRegistry.dispatch, getEmailTool, h]
  · intro h
    simp [ToolRegistry.dispatch, h]

/-- C4 witness: the textual failure modes evaluated concretely — a missing
`command` raising on the configured registry, an unknown tool name, and
the unconfigured-email and unconfigured-memory messages on a bare
registry. -/
theorem dispatch_known_failures_textual_witness :
    exampleRegistry.dispatch (fun _ _ => "") "bash" [("timeout", .num 5)] "s" "c" "r"
      = .error (.keyError "command")
    ∧ exampleRegistry.dispatch (fun _ _ => "") "frobnicate" [("timeout", .num 5)] "s" "c" "r"
      = .ok "[ERROR] Unknown tool: frobnicate"
    ∧ bareRegistry.dispatch (fun _ _ => "") "email_list" [("timeout", .num 5)] "s" "c" "r"
      = .ok "[ERROR] Email not configured"
    ∧ bareRegistry.dispatch (fun _ _ => "") "remember" [("timeout", .num 5)] "s" "c" "r"
      = .ok "[ERROR] Memory not available" :=
  ⟨(dispatch_known_failures_textual exampleRegistry (fun _ _ => "")
      [("timeout", .num 5)] "s" "c" "r" "frobnicate").1 rfl,
   (dispatch_known_failures_textual exampleRegistry (fun _ _ => "")
      [("timeout", .num 5)] "s" "c" "r" "frobnicate").2.1 (by decide),
   (dispatch_known_failures_textual bareRegistry (fun _ _ => "")
      [("timeout", .num 5)] "s" "c" "r" "frobnicate").2.2.1 rfl,
   (dispatch_known_failures_textual bareRegistry (fun _ _ => "")
      [("timeout", .num 5)] "s" "c" "r" "frobnicate").2.2.2 rfl⟩
